import Mathlib

/-
Verification development for the travel_planner chat application
(src/travel_planner.py).

The relevant parts of the program are translated into executable Lean
definitions:

* Python strings are modelled as `String` / `List Char`.
* A Python value that may be `None` is modelled as `Option String`; Python
  truthiness of such a value (`None` and `""` are falsy) is `truthyOpt`.
* The regular expressions of `extract_travel_info` are modelled by
  hand-written matchers reproducing `re.search` semantics for the exact
  patterns of the source: leftmost match position wins, alternatives are
  tried in written order at each position, `(.+?)` is lazy, `\s*`, `\d+`,
  `s?` are greedy with backtracking.  Character classes are taken at their
  ASCII meaning (`\s` is space, tab, newline, carriage return, form feed
  and vertical tab; `\w` is letters, digits and underscore), which covers
  the chat inputs the program receives.
* The external providers used by itinerary generation (Google Places,
  TripAdvisor, weather, web search, `random.choice`, `datetime.now`) are
  modelled as an explicit environment `GenEnv` of functions; a call that
  can raise is a function into `Except String _`.
-/

/-! ## Basic string helpers (Python semantics) -/

/-- Python's `\s` class, at its ASCII meaning: space, tab, newline,
carriage return, form feed, vertical tab. -/
def pyIsSpace (c : Char) : Bool :=
  c = ' ' || c = '\t' || c = '\n' || c = '\r' || c = Char.ofNat 11 || c = Char.ofNat 12

/-- Python's `\w` class (ASCII): letters, digits, underscore. -/
def isWordCh (c : Char) : Bool :=
  c.isAlpha || c.isDigit || c = '_'

/-- If `pat` is a prefix of `l`, return the rest of `l`; otherwise `none`. -/
def dropLit : List Char → List Char → Option (List Char)
  | l, [] => some l
  | [], _ :: _ => none
  | c :: cs, p :: ps => if c = p then dropLit cs ps else none

/-- Does `pat` occur as a contiguous substring of `s`?  This is Python's
`pat in s`. -/
def hasSub : List Char → List Char → Bool
  | [], pat => pat.isEmpty
  | c :: cs, pat => (dropLit (c :: cs) pat).isSome || hasSub cs pat

/-- Python `pat in s` on strings. -/
def strContains (s pat : String) : Bool := hasSub s.data pat.data

/-- Truthiness of a Python string-or-None value: `None` and `""` are falsy. -/
def truthyOpt : Option String → Bool
  | none => false
  | some s => !(s = "")

/-- Rendering of a string-or-None value inside an f-string:
`None` renders as `"None"`. -/
def pyOptRepr : Option String → String
  | none => "None"
  | some s => s

/-- Python `str.lower()` (ASCII letters; the inputs the program
handles). -/
def pyLower (s : String) : String := String.mk (s.data.map Char.toLower)

/-- Python `s.split(sep)` for a non-empty separator, on character lists
with a fuel argument for termination (fuel is the input length, enough
for every step to consume at least one character). -/
def pySplitAux (sep : List Char) : Nat → List Char → List Char → List (List Char)
  | 0, l, acc => [acc.reverse ++ l]
  | fuel + 1, l, acc =>
    match l with
    | [] => [acc.reverse]
    | c :: cs =>
      match dropLit (c :: cs) sep with
      | some rest => acc.reverse :: pySplitAux sep fuel rest []
      | none => pySplitAux sep fuel cs (c :: acc)

/-- Python `s.split(sep)`. -/
def pySplit (s sep : String) : List String :=
  (pySplitAux sep.data s.data.length s.data []).map String.mk

/-- Python `sep.join(l)`. -/
def pyJoin (sep : String) : List String → String
  | [] => ""
  | [x] => x
  | x :: y :: rest => x ++ sep ++ pyJoin sep (y :: rest)

/-- Python `s.replace(pat, rep)` (all non-overlapping occurrences, left
to right), with a fuel argument for termination. -/
def pyReplaceAux (pat rep : List Char) : Nat → List Char → List Char
  | 0, l => l
  | fuel + 1, l =>
    match l with
    | [] => []
    | c :: cs =>
      match dropLit (c :: cs) pat with
      | some rest => rep ++ pyReplaceAux pat rep fuel rest
      | none => c :: pyReplaceAux pat rep fuel cs

/-- Python `s.replace(pat, rep)`. -/
def pyReplace (s pat rep : String) : String :=
  String.mk (pyReplaceAux pat.data rep.data s.data.length s.data)

/-- Numeric value of a list of decimal digit characters
(`int` applied to the digit string). -/
def digitsToNat (ds : List Char) : Nat :=
  ds.foldl (fun a c => a * 10 + (c.toNat - 48)) 0

/-- The first maximal run of digits in the list, if any
(the match of `re.search(r'(\d+)', s)`). -/
def firstDigitRun : List Char → Option (List Char)
  | [] => none
  | c :: cs => if c.isDigit then some (c :: cs.takeWhile Char.isDigit) else firstDigitRun cs

/-- `int(re.search(r'(\d+)', s).group(1))`, when a digit run exists. -/
def firstNat (s : String) : Option Nat :=
  (firstDigitRun s.data).map digitsToNat

/-- Python `str.strip()`: remove leading and trailing whitespace. -/
def pyStrip (l : List Char) : List Char :=
  ((l.dropWhile pyIsSpace).reverse.dropWhile pyIsSpace).reverse

/-- Python `str.title()`: a cased character that follows a non-cased
character is uppercased, every other cased character is lowercased. -/
def pyTitleAux : Bool → List Char → List Char
  | _, [] => []
  | prevAlpha, c :: cs =>
    if c.isAlpha then
      (if prevAlpha then c.toLower else c.toUpper) :: pyTitleAux true cs
    else
      c :: pyTitleAux false cs

/-- Python `str.title()` on a `String`. -/
def pyTitle (s : String) : String := String.mk (pyTitleAux false s.data)

/-! ## Numeric normalization helpers

`extract_days` (travel_planner.py lines 315-327) and `extract_budget`
(lines 329-343).  Their argument is a profile field, i.e. a string or
`None`; Python's `if not duration_str` also treats `""` as absent.
The `try/except` wrappers of the source cannot fire on string input
(no operation in the body raises), so they add no cases here. -/

/-- `extract_days(duration_str)`: `None`/`""` ↦ 5; lowered text containing
`"week"` ↦ 7; containing `"month"` ↦ 30; else the first digit run as a
number; else 5. -/
def extract_days : Option String → Nat
  | none => 5
  | some s =>
    if s = "" then 5
    else
      let t := pyLower s
      if strContains t "week" then 7
      else if strContains t "month" then 30
      else
        match firstNat t with
        | some n => n
        | none => 5

/-- `extract_budget(budget_str)`: `None`/`""` ↦ 2000; keyword bands
(luxury/high ↦ 5000, moderate/medium ↦ 2500, budget/low/cheap ↦ 1000);
else `int(re.sub(r'[^\d]', '', s))` (all digits of the text concatenated);
else 2000. -/
def extract_budget : Option String → Nat
  | none => 2000
  | some s =>
    if s = "" then 2000
    else
      let t := pyLower s
      if strContains t "luxury" || strContains t "high" then 5000
      else if strContains t "moderate" || strContains t "medium" then 2500
      else if strContains t "budget" || strContains t "low" || strContains t "cheap" then 1000
      else
        let ds := t.data.filter Char.isDigit
        if ds.isEmpty then 2000 else digitsToNat ds

/-! ## Matchers for the regular expressions of `extract_travel_info`

Each matcher reproduces `re.search` on the exact pattern of the source:
scan start positions from the left; at each position try the alternatives
in written order; within an alternative use the greedy/lazy backtracking
behaviour of the quantifiers. -/

/-- `(\d+)` at the current position followed by the rest: the maximal
digit run, which is the only run Python's backtracking can use whenever
the following pattern element cannot match a digit (true for every
pattern below). -/
def digitRunSplit : List Char → Option (List Char × List Char)
  | [] => none
  | c :: cs =>
    if c.isDigit then some (c :: cs.takeWhile Char.isDigit, cs.dropWhile Char.isDigit)
    else none

/-- `\b` at a position whose preceding character is a word character:
holds iff the next character is absent or not a word character. -/
def endBoundary : List Char → Bool
  | [] => true
  | c :: _ => !isWordCh c

/-! ### Destination: the pattern of lines 474-477

`(?:going to|visiting|travel(?:ing)? to|destination is?|in|trip to|`
`heading to|visit|go to)\s*(.+?)(?:\s|,|\.|$)|^(paris|rome|london|`
`new york|tokyo)\b` -/

/-- The literal alternatives of the prepositional group, in Python's
backtracking order (`travel(?:ing)? to` tries `ing` first, `is?` tries
`s` first). -/
def destPrepositions : List (List Char) :=
  [" going to", " visiting", " traveling to", " travel to", " destination is",
   " destination i", " in", " trip to", " heading to", " visit", " go to"
  ].map (List.drop 1 ∘ String.data)

/-- `(.+?)(?:\s|,|\.|$)` starting at the group start: the lazy group takes
the fewest (≥ 1) non-newline characters such that the next character is
whitespace, `,`, `.`, or the string ends. -/
def lazyGroup : List Char → Option (List Char)
  | [] => none
  | c :: rest =>
    if c = '\n' then none
    else
      match rest with
      | [] => some [c]
      | d :: _ =>
        if pyIsSpace d || d = ',' || d = '.' then some [c]
        else (lazyGroup rest).map (fun g => c :: g)

/-- `\s*(.+?)(?:\s|,|\.|$)` after a matched preposition: `\s*` greedily
takes `k` whitespace characters and backtracks `k` downwards until the
lazy group succeeds. -/
def destTryFromK (r : List Char) : Nat → Option (List Char)
  | 0 => lazyGroup r
  | k + 1 =>
    match lazyGroup (r.drop (k + 1)) with
    | some g => some g
    | none => destTryFromK r k

/-- The suffix of alternative 1 after one of the prepositions matched. -/
def destAfterPrep (r : List Char) : Option (List Char) :=
  destTryFromK r ((r.takeWhile pyIsSpace).length)

/-- Try each matching preposition (in order) at the current position and
run the suffix; backtracking moves to the next preposition on failure. -/
def pickFirst {α β : Type} (f : α → Option β) : List α → Option β
  | [] => none
  | a :: as =>
    match f a with
    | some b => some b
    | none => pickFirst f as

/-- Alternative 1 of the destination pattern at the current position:
returns the captured group 1. -/
def destAlt1At (l : List Char) : Option (List Char) :=
  pickFirst
    (fun pre =>
      match dropLit l pre with
      | some r => destAfterPrep r
      | none => none)
    destPrepositions

/-- Alternative 2, `^(paris|rome|london|new york|tokyo)\b`, which can only
match at position 0: returns the captured group 2. -/
def destCityAt (l : List Char) : Option (List Char) :=
  pickFirst
    (fun city =>
      match dropLit l city with
      | some r => if endBoundary r then some city else none
      | none => none)
    ([" paris", " rome", " london", " new york", " tokyo"].map (List.drop 1 ∘ String.data))

/-- Alternative 1 at every position from the current one on. -/
def destScanFrom : List Char → Option (List Char)
  | [] => none
  | c :: cs =>
    match destAlt1At (c :: cs) with
    | some g => some g
    | none => destScanFrom cs

/-- `re.search` of the destination pattern: at position 0 alternative 1
is tried before the anchored alternative 2; from position 1 on only
alternative 1 can match. -/
def destSearch (l : List Char) : Option (List Char) :=
  match destAlt1At l with
  | some g => some g
  | none =>
    match destCityAt l with
    | some g => some g
    | none =>
      match l with
      | [] => none
      | _ :: cs => destScanFrom cs

/-- The post-processing of a matched destination group (line 481):
`re.sub(r'[^a-zA-Z\s]', '', dest).strip().title()`. -/
def cleanDestination (g : List Char) : String :=
  String.mk (pyTitleAux false (pyStrip (g.filter (fun c => c.isAlpha || pyIsSpace c))))

/-! ### Duration: the pattern of line 485

`(\d+)\s?(?:day|week|month)s?\b|for\s(\d+)\s(?:day|week|month)s?\b|(\d+)-day` -/

/-- `(?:day|week|month)s?\b` at the current position.  After the unit a
greedy optional `s` is taken when present; the fallback without `s` then
necessarily fails `\b` because `s` is a word character. -/
def unitSTail (l : List Char) : Bool :=
  pickFirst
    (fun u =>
      match dropLit l u with
      | some r =>
        match r with
        | [] => some true
        | c :: r3 =>
          if c = 's' then (if endBoundary r3 then some true else none)
          else (if endBoundary (c :: r3) then some true else none)
      | none => none)
    ([" day", " week", " month"].map (List.drop 1 ∘ String.data))
  |>.isSome

/-- Alternative 1, `(\d+)\s?(?:day|week|month)s?\b`, at the current
position: greedy optional whitespace is tried first, then without it. -/
def durAlt1At (l : List Char) : Option (List Char) :=
  match digitRunSplit l with
  | some (run, rest) =>
    let ok :=
      match rest with
      | [] => false
      | c :: r1 => (pyIsSpace c && unitSTail r1) || unitSTail (c :: r1)
    if ok then some run else none
  | none => none

/-- Alternative 2, `for\s(\d+)\s(?:day|week|month)s?\b`. -/
def durAlt2At (l : List Char) : Option (List Char) :=
  match dropLit l ['f', 'o', 'r'] with
  | some (c :: r1) =>
    if pyIsSpace c then
      match digitRunSplit r1 with
      | some (run, c2 :: r2) => if pyIsSpace c2 && unitSTail r2 then some run else none
      | _ => none
    else none
  | _ => none

/-- Alternative 3, `(\d+)-day` (no boundary after `day`). -/
def durAlt3At (l : List Char) : Option (List Char) :=
  match digitRunSplit l with
  | some (run, rest) =>
    match dropLit rest ['-', 'd', 'a', 'y'] with
    | some _ => some run
    | none => none
  | none => none

/-- `re.search` of the duration pattern: the captured digit run of the
leftmost match, alternatives tried in order at each position. -/
def durSearch : List Char → Option (List Char)
  | [] => none
  | c :: cs =>
    match durAlt1At (c :: cs) with
    | some g => some g
    | none =>
      match durAlt2At (c :: cs) with
      | some g => some g
      | none =>
        match durAlt3At (c :: cs) with
        | some g => some g
        | none => durSearch cs

/-! ### Budget: the pattern of line 495

`(?:budget|price|cost)\s?(?:of|is|around)?\s?(\$?\d+(?:,\d{3})*(?:\.\d{2})?)(?:\s|$)`
`|(\d+)\s?(?:dollars|USD|EUR)|\$(\d+)|(low|moderate|medium|high|luxury)\s?budget`

Note that the subject text is lowercased before matching, so the `USD` and
`EUR` alternatives can never match; they are kept in the model verbatim. -/

/-- Suffixes after 0, 1, 2, … repetitions of `(?:,\d{3})*`, most
repetitions first (greedy order). -/
def commaRepsSuffixes : List Char → List (List Char)
  | ',' :: d1 :: d2 :: d3 :: rest =>
    if d1.isDigit && d2.isDigit && d3.isDigit then
      commaRepsSuffixes rest ++ [',' :: d1 :: d2 :: d3 :: rest]
    else [',' :: d1 :: d2 :: d3 :: rest]
  | l => [l]

/-- Suffixes after `(?:\.\d{2})?`, the consuming option first (greedy). -/
def decimalSuffixes : List Char → List (List Char)
  | '.' :: d1 :: d2 :: rest =>
    if d1.isDigit && d2.isDigit then [rest, '.' :: d1 :: d2 :: rest]
    else ['.' :: d1 :: d2 :: rest]
  | l => [l]

/-- `(?:\s|$)` at the current position. -/
def spaceOrEnd : List Char → Bool
  | [] => true
  | c :: _ => pyIsSpace c

/-- The money group `(\$?\d+(?:,\d{3})*(?:\.\d{2})?)(?:\s|$)` at the
current position: returns the captured group text (terminator excluded).
`\$?` and `\d+` are deterministic here because a digit can never start
the element that follows them. -/
def moneyGroup (l : List Char) : Option (List Char) :=
  let l1 := match l with
            | '$' :: r => r
            | _ => l
  match digitRunSplit l1 with
  | none => none
  | some (_, rest) =>
    match pickFirst
        (fun u => pickFirst (fun v => if spaceOrEnd v then some v else none) (decimalSuffixes u))
        (commaRepsSuffixes rest) with
    | some v => some (l.take (l.length - v.length))
    | none => none

/-- `\s?` at the current position: the consuming option first (greedy). -/
def optSpaceSuffixes : List Char → List (List Char)
  | c :: rest => if pyIsSpace c then [rest, c :: rest] else [c :: rest]
  | [] => [[]]

/-- `(?:of|is|around)?` at the current position: alternatives in order,
the empty option last. -/
def optLinkSuffixes (l : List Char) : List (List Char) :=
  (([" of", " is", " around"].map (List.drop 1 ∘ String.data)).filterMap
    (fun w => dropLit l w)) ++ [l]

/-- Alternative 1 of the budget pattern at the current position, after
one of `budget`/`price`/`cost` (mutually exclusive first characters)
matched: enumerate the backtracking configurations of
`\s?(?:of|is|around)?\s?` in greedy order, then the money group. -/
def budAlt1At (l : List Char) : Option (List Char) :=
  pickFirst
    (fun kw =>
      match dropLit l kw with
      | some r =>
        pickFirst
          (fun a =>
            pickFirst
              (fun b => pickFirst (fun c => moneyGroup c) (optSpaceSuffixes b))
              (optLinkSuffixes a))
          (optSpaceSuffixes r)
      | none => none)
    ([" budget", " price", " cost"].map (List.drop 1 ∘ String.data))

/-- Alternative 2, `(\d+)\s?(?:dollars|USD|EUR)` (upper-case alternatives
dead on lowercased text). -/
def budAlt2At (l : List Char) : Option (List Char) :=
  match digitRunSplit l with
  | some (run, rest) =>
    match pickFirst
        (fun r => pickFirst (fun u => dropLit r u)
          ([" dollars", " USD", " EUR"].map (List.drop 1 ∘ String.data)))
        (optSpaceSuffixes rest) with
    | some _ => some run
    | none => none
  | none => none

/-- Alternative 3, `\$(\d+)`. -/
def budAlt3At (l : List Char) : Option (List Char) :=
  match l with
  | '$' :: r =>
    match digitRunSplit r with
    | some (run, _) => some run
    | none => none
  | _ => none

/-- Alternative 4, `(low|moderate|medium|high|luxury)\s?budget`; the
capture is the band word itself. -/
def budAlt4At (l : List Char) : Option (List Char) :=
  pickFirst
    (fun w =>
      match dropLit l w with
      | some r =>
        match pickFirst (fun r2 => dropLit r2 (List.drop 1 " budget".data)) (optSpaceSuffixes r) with
        | some _ => some w
        | none => none
      | none => none)
    ([" low", " moderate", " medium", " high", " luxury"].map (List.drop 1 ∘ String.data))

/-- `re.search` of the budget pattern; the value stored by the extractor
is the first non-empty capture group, i.e. the one of the alternative
that matched. -/
def budSearch : List Char → Option (List Char)
  | [] => none
  | c :: cs =>
    match budAlt1At (c :: cs) with
    | some g => some g
    | none =>
      match budAlt2At (c :: cs) with
      | some g => some g
      | none =>
        match budAlt3At (c :: cs) with
        | some g => some g
        | none =>
          match budAlt4At (c :: cs) with
          | some g => some g
          | none => budSearch cs

/-! ### Word-boundary keyword searches (purpose, interests, dietary,
mobility, accommodation maps, lines 504-597)

Every pattern in these maps starts and ends with a word character, so
`\b` at the start means "previous character absent or not a word
character" and `\b` at the end is `endBoundary`. -/

/-- Scan for a pattern `p` (given as: match at this position, return the
rest) with word boundaries on both sides.  `prev` is the character just
before the current position. -/
def searchBnd (p : List Char → Option (List Char)) : Option Char → List Char → Bool
  | prev, l =>
    (match prev with
     | none => true
     | some c => !isWordCh c) &&
    (match p l with
     | some rest => endBoundary rest
     | none => false) ||
    (match l with
     | [] => false
     | c :: cs => searchBnd p (some c) cs)

/-- `re.search(r'\b<word>\b', t)` where `<word>` may contain `&`. -/
def wordSearch (w : String) (t : List Char) : Bool :=
  searchBnd (fun l => dropLit l w.data) none t

/-- `re.search(r'\b<w1>[\s-]?<w2>\b', t)`: greedy optional single
separator (whitespace or `-`). -/
def sepWordSearch (w1 w2 : String) (t : List Char) : Bool :=
  searchBnd
    (fun l =>
      match dropLit l w1.data with
      | some (c :: cs) =>
        if pyIsSpace c || c = '-' then
          match dropLit cs w2.data with
          | some r2 => some r2
          | none => dropLit (c :: cs) w2.data
        else dropLit (c :: cs) w2.data
      | some [] => none
      | none => none)
    none t

/-- `re.search(r'\b<w1>\s+<w2>\b', t)`: the maximal whitespace run is the
only one backtracking can use, since `<w2>` starts with a letter. -/
def spacedWordSearch (w1 w2 : String) (t : List Char) : Bool :=
  searchBnd
    (fun l =>
      match dropLit l w1.data with
      | some r =>
        if (r.takeWhile pyIsSpace).isEmpty then none
        else dropLit (r.dropWhile pyIsSpace) w2.data
      | none => none)
    none t

/-! ### The pattern tables of `extract_travel_info` (lines 504-597) -/

/-- `purpose_map`: first matching rule wins (dict order preserved). -/
def purpose_map : List ((List Char → Bool) × String) :=
  [(wordSearch "vacation", "Leisure"), (wordSearch "holiday", "Leisure"),
   (wordSearch "business", "Business"), (wordSearch "work", "Business"),
   (wordSearch "honeymoon", "Honeymoon"), (wordSearch "anniversary", "Anniversary"),
   (wordSearch "family", "Family"), (wordSearch "solo", "Solo"),
   (wordSearch "couple", "Romantic"), (wordSearch "friends", "Friends")]

/-- `interest_map`: all matching rules contribute a label. -/
def interest_map : List ((List Char → Bool) × String) :=
  [(wordSearch "art", "Art"), (wordSearch "museum", "Art"),
   (wordSearch "history", "History"), (wordSearch "historical", "History"),
   (wordSearch "food", "Food"), (wordSearch "cuisine", "Food"),
   (wordSearch "eating", "Food"), (wordSearch "restaurant", "Food"),
   (wordSearch "adventure", "Adventure"), (wordSearch "hiking", "Adventure"),
   (wordSearch "outdoor", "Adventure"), (wordSearch "relax", "Relaxation"),
   (wordSearch "spa", "Relaxation"), (wordSearch "beach", "Relaxation"),
   (wordSearch "shop", "Shopping"), (wordSearch "nature", "Nature"),
   (wordSearch "park", "Nature"), (wordSearch "photography", "Photography"),
   (wordSearch "architecture", "Architecture")]

/-- `dietary_map`: first matching rule wins. -/
def dietary_map : List ((List Char → Bool) × String) :=
  [(wordSearch "vegetarian", "Vegetarian"), (wordSearch "vegan", "Vegan"),
   (sepWordSearch "gluten" "free", "Gluten-free"), (wordSearch "kosher", "Kosher"),
   (wordSearch "halal", "Halal"), (sepWordSearch "lactose" "free", "Dairy-free"),
   (sepWordSearch "nut" "free", "Nut-free"), (wordSearch "pescatarian", "Pescatarian")]

/-- `mobility_map`: first matching rule wins. -/
def mobility_map : List ((List Char → Bool) × String) :=
  [(wordSearch "mobility", "Limited mobility"),
   (wordSearch "wheelchair", "Wheelchair accessible"),
   (wordSearch "disability", "Accessibility needed"),
   (spacedWordSearch "walking" "difficult", "Limited walking"),
   (wordSearch "accessibility", "Accessibility needed"),
   (spacedWordSearch "physical" "limitation", "Limited mobility")]

/-- `accom_map`: first matching rule wins (note the source's `\bluxur\b`,
which the token "luxury" does not match). -/
def accom_map : List ((List Char → Bool) × String) :=
  [(wordSearch "luxur", "Luxury"), (wordSearch "boutique", "Boutique"),
   (wordSearch "budget", "Budget"), (wordSearch "hostel", "Hostel"),
   (wordSearch "airbnb", "Vacation rental"), (wordSearch "central", "Central location"),
   (wordSearch "quiet", "Quiet area"), (wordSearch "resort", "Resort"),
   (wordSearch "apartment", "Apartment"), (wordSearch "guesthouse", "Guesthouse"),
   (wordSearch "b&b", "Bed and breakfast")]

/-- First rule of a table whose pattern matches the text; its label. -/
def firstMatchMap (m : List ((List Char → Bool) × String)) (t : List Char) : Option String :=
  (m.find? (fun e => e.1 t)).map (fun e => e.2)

/-- Keep-first deduplication of the collected interest labels.  The source
uses `list(set(interests))`, whose order is unspecified (Python hash
randomization); the spec explicitly leaves the order unasserted, and no
claim below depends on it, so the model fixes first-occurrence order. -/
def dedupFirst (l : List String) : List String :=
  l.foldl (fun acc x => if acc.contains x then acc else acc ++ [x]) []

/-- The partial profile update produced by one utterance: a Python dict
that contains only the detected keys.  An absent key is `none`. -/
structure Extracted where
  destination : Option String
  duration : Option String
  budget : Option String
  purpose : Option String
  interests : Option String
  dietary_restrictions : Option String
  mobility_concerns : Option String
  accommodation_preference : Option String
deriving DecidableEq, Repr

/-- The empty update (no keys). -/
def Extracted.empty : Extracted :=
  ⟨none, none, none, none, none, none, none, none⟩

/-- `extract_travel_info(text)` (lines 466-599).  The subject of every
pattern is the lowercased text.  A matched destination group is cleaned by
`re.sub(r'[^a-zA-Z\s]', '', ...).strip().title()` (which can yield `""`);
a matched duration numeral `n` is stored as `"n days"`; a matched budget
group is stored raw; interests are the deduplicated joined labels of all
matching rules. -/
def extract_travel_info (text : String) : Extracted :=
  if text = "" then Extracted.empty
  else
    let tl := (pyLower text).data
    { destination := (destSearch tl).map cleanDestination
      duration := (durSearch tl).map (fun g => String.mk g ++ " days")
      budget := (budSearch tl).map String.mk
      purpose := firstMatchMap purpose_map tl
      interests :=
        let ints := interest_map.filterMap (fun e => if e.1 tl then some e.2 else none)
        if ints.isEmpty then none else some (pyJoin ", " (dedupFirst ints))
      dietary_restrictions := firstMatchMap dietary_map tl
      mobility_concerns := firstMatchMap mobility_map tl
      accommodation_preference := firstMatchMap accom_map tl }

/-! ## Data model -/

/-- A recommendation item (a Python dict).  A key that may be missing from
a provider result is an `Option`; `none` models an absent key (the dicts the
program builds never hold a `None` value under a present key). -/
structure Item where
  name : Option String
  type : Option String
  rating : Option String
  price_level : Option Nat
  location : Option String
  dietary : Option String
  tags : List String
deriving DecidableEq, Repr

/-- The `st.session_state.user_info` dict: all nine keys always present,
each holding a string or `None`. -/
structure Profile where
  destination : Option String
  duration : Option String
  budget : Option String
  purpose : Option String
  interests : Option String
  dietary_restrictions : Option String
  mobility_concerns : Option String
  accommodation_preference : Option String
  itinerary : Option String
deriving DecidableEq, Repr

/-- The profile created at conversation start: all fields `None`. -/
def Profile.empty : Profile :=
  ⟨none, none, none, none, none, none, none, none, none⟩

/-! ## `filter_by_preferences` (lines 402-427)

The `preferences` argument is always the `user_info` dict, which has all
nine keys and is therefore always truthy, so Python's
`if not preferences or not items: return items` reduces to the
`not items` test. -/

/-- The interest keyword list:
`preferences.get('interests', '').lower().split(', ')` when the interests
field is truthy, else `[]`. -/
def interestsOf (preferences : Profile) : List String :=
  if truthyOpt preferences.interests then
    pySplit (pyLower (preferences.interests.getD "")) ", "
  else []

/-- The loop body of `filter_by_preferences`: an item is appended iff one
of the three keep-conditions holds. -/
def keepItem (interests : List String) (preferences : Profile) (item : Item) : Bool :=
  (!interests.isEmpty &&
    interests.any (fun i =>
      strContains (pyLower (item.name.getD "")) i ||
      strContains (pyLower (item.type.getD "")) i)) ||
  (item.dietary.isSome && truthyOpt preferences.dietary_restrictions &&
    strContains (pyLower (item.dietary.getD ""))
      (pyLower (preferences.dietary_restrictions.getD ""))) ||
  (item.type.isSome && truthyOpt preferences.accommodation_preference &&
    strContains (pyLower (item.type.getD ""))
      (pyLower (preferences.accommodation_preference.getD "")))

/-- `filter_by_preferences(items, preferences)`: keep the matching items;
if none matched, fall back to the first five of the unfiltered list. -/
def filter_by_preferences (items : List Item) (preferences : Profile) : List Item :=
  if items.isEmpty then items
  else
    let filtered := items.filter (keepItem (interestsOf preferences) preferences)
    if filtered.isEmpty then items.take 5 else filtered

/-! ## `refine_vague_input` (lines 429-464) -/

/-- `refine_vague_input(text, field)`: the vague-input table; `none`
models Python's `return None`. -/
def refine_vague_input (text field : String) : Option String :=
  let tl := pyLower text
  if field = "budget" then
    if strContains tl "moderate" || strContains tl "medium" then
      some "For a moderate budget, I\x27d suggest $150-$200 per day. Does this range work for you?"
    else if strContains tl "low" || strContains tl "cheap" || strContains tl "budget" then
      some "For a budget trip, I\x27d suggest $50-$100 per day. Does this range work for you?"
    else if strContains tl "high" || strContains tl "luxury" || strContains tl "expensive" then
      some "For a luxury trip, I\x27d suggest $300+ per day. Does this range work for you?"
    else if strContains tl "some" || strContains tl "enough" then
      some "Would you like me to suggest a budget range based on your destination?"
    else none
  else if field = "duration" then
    if strContains tl "week" then
      some "Would you like me to plan for 7 days (1 week)?"
    else if strContains tl "month" then
      some "Would you like me to plan for 30 days (1 month)?"
    else if strContains tl "long" || strContains tl "extended" then
      some "Would you like me to suggest an ideal duration for your destination?"
    else none
  else if field = "interests" then
    if strContains tl "everything" || strContains tl "all" then
      some "I\x27ll include a mix of activities. Any particular favorites among these: cultural, adventure, food, relaxation?"
    else if strContains tl "some" || strContains tl "few" then
      some "Would you like me to suggest a balanced mix of activities, or focus on specific types?"
    else if strContains tl "not sure" || strContains tl "don\x27t know" then
      some "I can suggest popular activities for your destination. Would you like that?"
    else none
  else if field = "accommodation" then
    if strContains tl "surprise" || strContains tl "you choose" then
      some "I can select a highly-rated option that fits your budget. Is that okay?"
    else if strContains tl "not sure" || strContains tl "don\x27t know" then
      some "Would you like me to suggest the best accommodation types for your destination?"
    else none
  else none

/-! ## `get_next_question` (lines 710-720) -/

/-- The required-slot order with its field accessors, exactly the
`required_fields` list of the source. -/
def requiredFields : List (String × (Profile → Option String)) :=
  [("destination", Profile.destination), ("duration", Profile.duration),
   ("budget", Profile.budget), ("purpose", Profile.purpose),
   ("interests", Profile.interests),
   ("dietary_restrictions", Profile.dietary_restrictions),
   ("mobility_concerns", Profile.mobility_concerns),
   ("accommodation_preference", Profile.accommodation_preference)]

/-- `get_next_question(user_info)`: `"get_" + field` for the first field
in `required_fields` whose value is falsy (`None` or `""`), else
`"confirm_generate"`. -/
def get_next_question (user_info : Profile) : String :=
  match requiredFields.find? (fun f => !truthyOpt (f.2 user_info)) with
  | some f => "get_" ++ f.1
  | none => "confirm_generate"

/-! ## `handle_user_response` (lines 722-776)

The conversation state the handler touches: the `conversation` list of
(role, content) pairs, the `user_info` profile, and the two remaining
session fields (which the handler never writes).  The itinerary
generation call is an explicit function argument `gen`, standing for
`generate_detailed_itinerary` applied to the live environment.  The
handler's `try/except` wrapper adds no cases: the translated body is
total. -/

/-- The mutable session state visible to the turn handler. -/
structure ConvState where
  conversation : List (String × String)
  user_info : Profile
  current_question : String
  used_web_search : Bool
deriving DecidableEq, Repr

/-- A chat input: a string, or a (truthy) value of any other type, which
fails the `isinstance(prompt, str)` test. -/
inductive PromptIn where
  | str (s : String)
  | nonString
deriving DecidableEq, Repr

/-- A field update: a key present in the extracted dict overwrites the
profile field, an absent key leaves it unchanged. -/
def updField (old new : Option String) : Option String :=
  match new with
  | some v => some v
  | none => old

/-- The profile after the extraction merge of line 729:
`user_info.update({k: v for k, v in extracted.items() if v is not None})`
(every value the extractor stores is a string, never `None`, so the
filter drops nothing). -/
def mergedProfile (s : ConvState) (p : String) : Profile :=
  let ex := extract_travel_info p
  { destination := updField s.user_info.destination ex.destination
    duration := updField s.user_info.duration ex.duration
    budget := updField s.user_info.budget ex.budget
    purpose := updField s.user_info.purpose ex.purpose
    interests := updField s.user_info.interests ex.interests
    dietary_restrictions := updField s.user_info.dietary_restrictions ex.dietary_restrictions
    mobility_concerns := updField s.user_info.mobility_concerns ex.mobility_concerns
    accommodation_preference := updField s.user_info.accommodation_preference ex.accommodation_preference
    itinerary := s.user_info.itinerary }

/-- The generation guard of lines 735-736: all five core fields truthy. -/
def coreAll (ui : Profile) : Bool :=
  truthyOpt ui.destination && truthyOpt ui.duration && truthyOpt ui.budget &&
  truthyOpt ui.purpose && truthyOpt ui.interests

/-- The dietary auto-default of lines 747-749: if `dietary_restrictions`
is falsy and the lowered interests text (`None` read as `""`) does not
contain `"food"`, set it to the literal string `"None"`. -/
def afterDietaryDefault (ui : Profile) : Profile :=
  if !truthyOpt ui.dietary_restrictions &&
     !strContains (pyLower (ui.interests.getD "")) "food" then
    { ui with dietary_restrictions := some "None" }
  else ui

/-- The `question_map` lookup of lines 761-773, i.e.
`question_map.get(next_q, "How can I help you with your travel plans?")`. -/
def lookupQuestion (k : String) : String :=
  if k = "get_destination" then "Where would you like to go?"
  else if k = "get_duration" then "How many days will your trip be?"
  else if k = "get_budget" then "What\x27s your approximate budget for this trip?"
  else if k = "get_purpose" then "Is this trip for leisure, business, or a special occasion?"
  else if k = "get_interests" then "What are your main interests? (e.g., art, food, adventure)"
  else if k = "get_dietary_restrictions" then "Any dietary restrictions we should consider?"
  else if k = "get_mobility_concerns" then "Any mobility concerns we should account for?"
  else if k = "get_accommodation_preference" then "What type of accommodation do you prefer?"
  else if k = "confirm_generate" then "Would you like me to generate your itinerary now?"
  else "How can I help you with your travel plans?"

/-- The state after a processed turn that did not generate: the user
message appended to the conversation, the merged-and-defaulted profile
stored. -/
def stateAfter (s : ConvState) (p : String) : ConvState :=
  { s with conversation := s.conversation ++ [("user", p)],
           user_info := afterDietaryDefault (mergedProfile s p) }

/-- The state after a turn whose five core fields are complete (the
dietary default of lines 747-749 is not reached on this path). -/
def stateCore (s : ConvState) (p : String) : ConvState :=
  { s with conversation := s.conversation ++ [("user", p)],
           user_info := mergedProfile s p }

/-- `handle_user_response(prompt)` (lines 722-776), returning the reply
and the session state after the turn.  `gen` stands for
`generate_detailed_itinerary` on the live environment. -/
def handle_user_response (gen : Profile → String) (s : ConvState) (prompt : PromptIn) :
    String × ConvState :=
  match prompt with
  | PromptIn.nonString => ("Please provide a valid travel request", s)
  | PromptIn.str p =>
    if p = "" then ("Please provide a valid travel request", s)
    else if coreAll (mergedProfile s p) then
      if strContains (pyLower p) "yes" || strContains (pyLower p) "generate" then
        let it := gen (mergedProfile s p)
        (it, { stateCore s p with
                 user_info := { mergedProfile s p with itinerary := some it } })
      else
        ("I have enough information to generate your itinerary. Would you like me to create it now?",
         stateCore s p)
    else
      let next_q := get_next_question (afterDietaryDefault (mergedProfile s p))
      match
        (if (["get_budget", "get_duration", "get_interests", "get_accommodation"].contains next_q)
         then refine_vague_input p (pyReplace next_q "get_" "")
         else none) with
      | some c => (c, stateAfter s p)
      | none => (lookupQuestion next_q, stateAfter s p)

/-! ## `generate_detailed_itinerary` (lines 601-708)

The function runs under `try/except Exception`, returning an
itinerary-shaped error string on any exception.  Every external effect of
the body is a field of `GenEnv`:

* `destInfo` — the `get_destination_info` call (network providers inside;
  it can raise, e.g. when the destination field is `None`);
* `weather` — `get_weather_forecast` for the day's date (that function
  catches all its exceptions and returns `None` on failure, so it is
  total);
* `choice` — `random.choice` (raises on an empty list, hence fallible);
* `dateStr` — `strftime("%A, %B %d")` of the day's date;
* `usedWebSearch` — the `st.session_state.used_web_search` flag read at
  line 703.

The budget lines of lines 692-696 are computed by Python with IEEE-754
double arithmetic (`int(budget_num*0.4)` etc.); the model uses the exact
integer values `budget_num*4/10` etc.  No claim settled here depends on
those digits (the float computation itself cannot raise except for the
division by zero when `days == 0`, which the model raises explicitly). -/

/-- A weather dict as rendered by the day loop; `none` models an absent
key, rendered through the `.get` defaults of line 675. -/
structure Weather where
  temp : Option String
  conditions : Option String
  icon : Option String
deriving DecidableEq, Repr

/-- The `dest_info` dict built by `get_destination_info`; `transport` is
only present for database destinations (`'transport' in dest_info`). -/
structure DestInfo where
  description : String
  must_see : List String
  activities : List Item
  dining : List Item
  accommodation : List Item
  transport : Option (List (String × String))
deriving DecidableEq, Repr

/-- The external world of one generation run. -/
structure GenEnv where
  destInfo : Option String → Profile → Except String DestInfo
  weather : Nat → Option Weather
  choice : List String → Except String String
  dateStr : Nat → String
  usedWebSearch : Bool

/-- `f"{n:,}"`: decimal digits grouped in threes by commas. -/
def commaGroupRev : List Char → List Char
  | d1 :: d2 :: d3 :: d4 :: rest => d1 :: d2 :: d3 :: ',' :: commaGroupRev (d4 :: rest)
  | l => l

/-- `f"{n:,}"` on a natural number. -/
def fmtComma (n : Nat) : String :=
  String.mk ((commaGroupRev (toString n).data.reverse).reverse)

/-- The numbered attraction list of lines 624-625. -/
def numberedLines : Nat → List String → String
  | _, [] => ""
  | i, x :: xs => toString i ++ ". " ++ x ++ "\n" ++ numberedLines (i + 1) xs

/-- One bullet of the activity/dining/accommodation sections
(lines 629-661): name, then rating, price level and location when
truthy. -/
def itemAnnot (it : Item) : String :=
  "- **" ++ pyOptRepr it.name ++ "**" ++
  (if truthyOpt it.rating then " ⭐ " ++ (it.rating.getD "") else "") ++
  (match it.price_level with
   | some (n + 1) => " " ++ String.mk (List.replicate (n + 1) '$')
   | _ => "") ++
  (if truthyOpt it.location then "\n  📍 " ++ (it.location.getD "") else "") ++
  "\n"

/-- A section of up to `n` annotated items, emitted only when the list is
non-empty. -/
def itemSection (header : String) (n : Nat) (items : List Item) : String :=
  if items.isEmpty then ""
  else "\n" ++ header ++ "\n" ++ String.join ((items.take n).map itemAnnot)

/-- The weather fragment of lines 671-675. -/
def weatherFragment : Option Weather → String
  | none => ""
  | some w =>
    " <img src=\x27https://openweathermap.org/img/wn/" ++ (w.icon.getD "01d") ++
    "@2x.png\x27 width=\x27" ++ "30\x27> " ++
    (match w.temp with
     | some t => t
     | none => "?") ++ "°C, " ++ (w.conditions.getD "")

/-- One day of the schedule loop (lines 666-690). -/
def dayBlock (env : GenEnv) (activities dining : List Item) (day : Nat) :
    Except String String := do
  let head := "\n**Day " ++ toString day ++ ": " ++ env.dateStr day ++ "**" ++
              weatherFragment (env.weather day) ++ "\n"
  let morning_acts :=
    let f := activities.filter (fun a => a.tags.contains "morning")
    if f.isEmpty then activities else f
  let mornNames := (morning_acts.take 3).map (fun a => pyOptRepr a.name)
  let mc ← env.choice (if mornNames.isEmpty then ["Explore the city"] else mornNames)
  let afternoon_acts :=
    let f := activities.filter (fun a => a.tags.contains "afternoon")
    if f.isEmpty then activities else f
  let aftNames := (afternoon_acts.take 3).map (fun a => pyOptRepr a.name)
  let ac ← env.choice (if aftNames.isEmpty then ["Visit local attractions"] else aftNames)
  let fixedEvening := ["Night walking tour", "Cultural performance", "Relax at your accommodation"]
  let evOptions ←
    if dining.isEmpty then pure fixedEvening
    else do
      let d ← env.choice ((dining.take 3).map (fun x => pyOptRepr x.name))
      pure (("Dinner at " ++ d) :: fixedEvening)
  let ec ← env.choice evOptions
  pure (head ++ "🌅 Morning: " ++ mc ++ "\n" ++ "⛅ Afternoon: " ++ ac ++ "\n" ++
        "🌇 Evening: " ++ ec ++ "\n")

/-- The schedule days `cur, cur+1, …` (`n` of them), concatenated. -/
def dayBlocks (env : GenEnv) (activities dining : List Item) : Nat → Nat → Except String String
  | _, 0 => pure ""
  | cur, n + 1 => do
    let b ← dayBlock env activities dining cur
    let r ← dayBlocks env activities dining (cur + 1) n
    pure (b ++ r)

/-- The `try` body of `generate_detailed_itinerary`. -/
def genBody (env : GenEnv) (ui : Profile) : Except String String := do
  let days := extract_days ui.duration
  let budget_num := extract_budget ui.budget
  let dest_info ← env.destInfo ui.destination ui
  let activities := filter_by_preferences dest_info.activities ui
  let dining := filter_by_preferences dest_info.dining ui
  let accommodation := filter_by_preferences dest_info.accommodation ui
  let destTitle ← match ui.destination with
    | some d => Except.ok (pyTitle d)
    | none => Except.error "\x27NoneType\x27 object has no attribute \x27title\x27"
  let overview :=
    "# ✈️ " ++ destTitle ++ " " ++ toString days ++ "-Day Itinerary\n\n" ++
    "_" ++ dest_info.description ++ "_\n\n" ++
    "## 📝 Trip Overview\n" ++
    "- **Traveler**: " ++ pyOptRepr ui.purpose ++ " trip\n" ++
    "- **Interests**: " ++ pyOptRepr ui.interests ++ "\n" ++
    (if truthyOpt ui.dietary_restrictions then
       "- **Dietary**: " ++ (ui.dietary_restrictions.getD "") ++ "\n" else "") ++
    (if truthyOpt ui.mobility_concerns then
       "- **Mobility**: " ++ (ui.mobility_concerns.getD "") ++ "\n" else "") ++
    "- **Accommodation**: " ++ pyOptRepr ui.accommodation_preference ++ "\n\n" ++
    "## 🌟 Top Rated Attractions\n" ++ numberedLines 1 (dest_info.must_see.take 10)
  let sections :=
    itemSection "## 🎭 Recommended Activities" 8 activities ++
    itemSection "## 🍽️ Dining Recommendations" 5 dining ++
    itemSection "## 🏨 Accommodation Options" 3 accommodation
  let scheduleHead := "\n## 📅 Sample " ++ toString days ++ "-Day Schedule\n"
  let schedule ← dayBlocks env activities dining 1 days
  if days = 0 then Except.error "division by zero" else pure ()
  let budgetBlock :=
    "\n## 💰 Budget Breakdown ($" ++ fmtComma budget_num ++ ")\n" ++
    "- Accommodation: $" ++ fmtComma (budget_num * 4 / 10) ++
      " ($" ++ fmtComma (budget_num * 4 / 10 / days) ++ "/night)\n" ++
    "- Food: $" ++ fmtComma (budget_num * 3 / 10) ++
      " ($" ++ fmtComma (budget_num * 3 / 10 / days) ++ "/day)\n" ++
    "- Activities: $" ++ fmtComma (budget_num * 2 / 10) ++ "\n" ++
    "- Transportation: $" ++ fmtComma (budget_num * 1 / 10) ++ "\n"
  let transportBlock :=
    match dest_info.transport with
    | none => ""
    | some ts =>
      "\n## 🚍 Transportation Tips\n" ++
      String.join (ts.map (fun mt => "- **" ++ pyTitle mt.1 ++ "**: " ++ mt.2 ++ "\n"))
  let disclaimer :=
    if env.usedWebSearch then
      "\n*Note: Some recommendations were sourced from recent web searches.*"
    else ""
  pure (overview ++ sections ++ scheduleHead ++ schedule ++ budgetBlock ++
        transportBlock ++ disclaimer)

/-- `generate_detailed_itinerary(user_info)`: the `try/except` of
lines 602-708 — the body's result, or the converted error string. -/
def generate_detailed_itinerary (env : GenEnv) (ui : Profile) : String :=
  match genBody env ui with
  | Except.ok s => s
  | Except.error e => "⚠️ Error generating itinerary: " ++ e

/-! ## Specification-side definition for the next-prompt claim

`nextPromptSpec` renders the (amended) specification sentence for
`nextPrompt` word for word — the first slot in canonical order whose
value is null or the empty string — to be compared with the translated
`get_next_question`. -/

/-- A slot value that is null or the empty string. -/
def nullOrEmpty : Option String → Bool
  | none => true
  | some s => s = ""

/-- The specification's next-prompt rule: the identifier of the first
slot in the canonical order destination, duration, budget, purpose,
interests, dietary_restrictions, mobility_concerns,
accommodation_preference whose value is null or empty; the
confirm-generation identifier when all eight are filled. -/
def nextPromptSpec (profile : Profile) : String :=
  if nullOrEmpty profile.destination then "get_destination"
  else if nullOrEmpty profile.duration then "get_duration"
  else if nullOrEmpty profile.budget then "get_budget"
  else if nullOrEmpty profile.purpose then "get_purpose"
  else if nullOrEmpty profile.interests then "get_interests"
  else if nullOrEmpty profile.dietary_restrictions then "get_dietary_restrictions"
  else if nullOrEmpty profile.mobility_concerns then "get_mobility_concerns"
  else if nullOrEmpty profile.accommodation_preference then "get_accommodation_preference"
  else "confirm_generate"

/-! ## Concrete sample data used by witnesses and counterexamples -/

/-- Six recommendation items with distinct names and no other data. -/
def sampleItems : List Item :=
  [⟨some "Louvre", none, none, none, none, none, []⟩,
   ⟨some "Eiffel Tower", none, none, none, none, none, []⟩,
   ⟨some "Notre-Dame", none, none, none, none, none, []⟩,
   ⟨some "Orsay", none, none, none, none, none, []⟩,
   ⟨some "Pantheon", none, none, none, none, none, []⟩,
   ⟨some "Montmartre", none, none, none, none, none, []⟩]

/-- A profile whose only set field is an interest list matching no item. -/
def profileNoHit : Profile :=
  { Profile.empty with interests := some "Quantum Chromodynamics" }

/-- A session whose profile has destination and duration filled, so the
pending slot is the budget. -/
def sessionBudgetPending : ConvState :=
  { conversation := []
    user_info := { Profile.empty with
                   destination := some "Paris"
                   duration := some "5 days" }
    current_question := "get_destination"
    used_web_search := false }

/-- A session whose profile has all slots except the accommodation
preference filled (its pending slot is the accommodation). -/
def sessionAccPending : ConvState :=
  { conversation := []
    user_info := { Profile.empty with
                   destination := some "Paris"
                   duration := some "5 days"
                   budget := some "2000"
                   purpose := some "Leisure"
                   interests := some "Art"
                   dietary_restrictions := some "None"
                   mobility_concerns := some "None" }
    current_question := "get_destination"
    used_web_search := false }

/-- A fresh session: empty conversation, empty profile. -/
def sessionFresh : ConvState := ⟨[], Profile.empty, "get_destination", false⟩

/-- A generation environment whose destination-info provider raises. -/
def envFail : GenEnv :=
  ⟨fun _ _ => Except.error "provider boom", fun _ => none,
   fun _ => Except.error "choice on empty list", fun _ => "", false⟩

/-- A stand-in for the generation pipeline in turn-handler statements
whose scenarios never reach it. -/
def genStub : Profile → String := fun _ => ""

/-! ## Helper lemmas -/

/-- Unfolding of the `required_fields` loop into the explicit slot
chain. -/
theorem get_next_question_chain (ui : Profile) :
    get_next_question ui =
      (if !truthyOpt ui.destination then "get_destination"
       else if !truthyOpt ui.duration then "get_duration"
       else if !truthyOpt ui.budget then "get_budget"
       else if !truthyOpt ui.purpose then "get_purpose"
       else if !truthyOpt ui.interests then "get_interests"
       else if !truthyOpt ui.dietary_restrictions then "get_dietary_restrictions"
       else if !truthyOpt ui.mobility_concerns then "get_mobility_concerns"
       else if !truthyOpt ui.accommodation_preference then "get_accommodation_preference"
       else "confirm_generate") := by
  by_cases h1 : truthyOpt ui.destination <;>
  by_cases h2 : truthyOpt ui.duration <;>
  by_cases h3 : truthyOpt ui.budget <;>
  by_cases h4 : truthyOpt ui.purpose <;>
  by_cases h5 : truthyOpt ui.interests <;>
  by_cases h6 : truthyOpt ui.dietary_restrictions <;>
  by_cases h7 : truthyOpt ui.mobility_concerns <;>
  by_cases h8 : truthyOpt ui.accommodation_preference <;>
  simp [get_next_question, requiredFields, List.find?, h1, h2, h3, h4, h5, h6, h7, h8]

/-- `nullOrEmpty` is the complement of Python truthiness. -/
theorem nullOrEmpty_eq_not_truthy (v : Option String) : nullOrEmpty v = !truthyOpt v := by
  cases v <;> simp [nullOrEmpty, truthyOpt]

/-- If the scan stops at the budget slot, the budget field is falsy. -/
theorem nextq_budget_falsy (ui : Profile) (h : get_next_question ui = "get_budget") :
    truthyOpt ui.budget = false := by
  rw [get_next_question_chain] at h
  split_ifs at h with h1 h2 h3 h4 h5 h6 h7 h8 <;>
    first
      | exact absurd h (by decide)
      | simpa using h3

/-- If the scan stops at the duration slot, the duration field is falsy. -/
theorem nextq_duration_falsy (ui : Profile) (h : get_next_question ui = "get_duration") :
    truthyOpt ui.duration = false := by
  rw [get_next_question_chain] at h
  split_ifs at h with h1 h2 <;>
    first
      | exact absurd h (by decide)
      | simpa using h2

/-- If the scan stops at the interests slot, the interests field is falsy. -/
theorem nextq_interests_falsy (ui : Profile) (h : get_next_question ui = "get_interests") :
    truthyOpt ui.interests = false := by
  rw [get_next_question_chain] at h
  split_ifs at h with h1 h2 h3 h4 h5 <;>
    first
      | exact absurd h (by decide)
      | simpa using h5

/-- A truthy dietary field is never selected by the scan. -/
theorem nextq_ne_dietary (ui : Profile) (h : truthyOpt ui.dietary_restrictions = true) :
    get_next_question ui ≠ "get_dietary_restrictions" := by
  rw [get_next_question_chain]
  split_ifs with h1 h2 h3 h4 h5 h6 h7 h8 <;>
    first
      | decide
      | simp_all

/-- The dietary default never changes the budget field. -/
theorem afterDietary_budget (ui : Profile) :
    (afterDietaryDefault ui).budget = ui.budget := by
  unfold afterDietaryDefault; split <;> rfl

/-- The dietary default never changes the duration field. -/
theorem afterDietary_duration (ui : Profile) :
    (afterDietaryDefault ui).duration = ui.duration := by
  unfold afterDietaryDefault; split <;> rfl

/-- The dietary default never changes the interests field. -/
theorem afterDietary_interests (ui : Profile) :
    (afterDietaryDefault ui).interests = ui.interests := by
  unfold afterDietaryDefault; split <;> rfl

/-- A clarification returned by `refine_vague_input` is never the
dietary question. -/
theorem refine_ne_dietary (t f q : String) (h : refine_vague_input t f = some q) :
    q ≠ "Any dietary restrictions we should consider?" := by
  simp only [refine_vague_input] at h
  split_ifs at h <;>
    first
      | exact Option.noConfusion h
      | (injection h with h2; subst h2; decide)

/-- `question_map.get` only produces the dietary question for the
dietary key. -/
theorem lookup_ne_dietary (k : String) (h : k ≠ "get_dietary_restrictions") :
    lookupQuestion k ≠ "Any dietary restrictions we should consider?" := by
  unfold lookupQuestion
  split_ifs <;> first | decide | simp_all

/-- A split-off digit run is a non-empty list of digits. -/
theorem digitRunSplit_digits (l run rest : List Char)
    (h : digitRunSplit l = some (run, rest)) :
    run ≠ [] ∧ run.all Char.isDigit = true := by
  cases l with
  | nil => simp [digitRunSplit] at h
  | cons c cs =>
    by_cases hc : c.isDigit
    · simp only [digitRunSplit, hc, if_true, Option.some.injEq, Prod.mk.injEq] at h
      obtain ⟨hrun, -⟩ := h
      subst hrun
      refine ⟨by simp, ?_⟩
      simp only [List.all_cons, hc, Bool.true_and, List.all_eq_true]
      intro x hx
      exact List.mem_takeWhile_imp hx
    · simp [digitRunSplit, hc] at h

/-- Alternative 1 of the duration pattern captures a digit run. -/
theorem durAlt1At_digits (l g : List Char) (h : durAlt1At l = some g) :
    g ≠ [] ∧ g.all Char.isDigit = true := by
  cases hd : digitRunSplit l with
  | none => simp [durAlt1At, hd] at h
  | some p =>
    obtain ⟨run, rest⟩ := p
    simp only [durAlt1At, hd] at h
    split_ifs at h
    injection h with h
    subst h
    exact digitRunSplit_digits l run rest hd

/-- Alternative 2 of the duration pattern captures a digit run. -/
theorem durAlt2At_digits (l g : List Char) (h : durAlt2At l = some g) :
    g ≠ [] ∧ g.all Char.isDigit = true := by
  cases hfor : dropLit l ['f', 'o', 'r'] with
  | none => simp [durAlt2At, hfor] at h
  | some r =>
    cases r with
    | nil => simp [durAlt2At, hfor] at h
    | cons c r1 =>
      simp only [durAlt2At, hfor] at h
      split_ifs at h
      cases hd : digitRunSplit r1 with
      | none => rw [hd] at h; simp at h
      | some p =>
        obtain ⟨run, rest⟩ := p
        rw [hd] at h
        cases rest with
        | nil => simp at h
        | cons c2 r2 =>
          simp only [] at h
          split_ifs at h
          injection h with h
          subst h
          exact digitRunSplit_digits r1 run (c2 :: r2) hd

/-- Alternative 3 of the duration pattern captures a digit run. -/
theorem durAlt3At_digits (l g : List Char) (h : durAlt3At l = some g) :
    g ≠ [] ∧ g.all Char.isDigit = true := by
  cases hd : digitRunSplit l with
  | none => simp [durAlt3At, hd] at h
  | some p =>
    obtain ⟨run, rest⟩ := p
    cases hdrop : dropLit rest ['-', 'd', 'a', 'y'] with
    | none => simp [durAlt3At, hd, hdrop] at h
    | some r =>
      simp only [durAlt3At, hd, hdrop] at h
      injection h with h
      subst h
      exact digitRunSplit_digits l run rest hd

/-- Whatever the duration search captures is a non-empty digit run. -/
theorem durSearch_digits (l g : List Char) (h : durSearch l = some g) :
    g ≠ [] ∧ g.all Char.isDigit = true := by
  induction l with
  | nil => simp [durSearch] at h
  | cons c cs ih =>
    rw [durSearch] at h
    cases h1 : durAlt1At (c :: cs) with
    | some g1 =>
      rw [h1] at h; injection h with h; subst h
      exact durAlt1At_digits _ _ h1
    | none =>
      rw [h1] at h
      cases h2 : durAlt2At (c :: cs) with
      | some g2 =>
        rw [h2] at h; injection h with h; subst h
        exact durAlt2At_digits _ _ h2
      | none =>
        rw [h2] at h
        cases h3 : durAlt3At (c :: cs) with
        | some g3 =>
          rw [h3] at h; injection h with h; subst h
          exact durAlt3At_digits _ _ h3
        | none =>
          rw [h3] at h
          exact ih h

/-! ## Claim theorems -/

/-- Claim C1: the duration normalization helper `extract_days` returns 5
on a null/absent input; 7 whenever the text contains "week"
(case-insensitively — the helper lowercases its argument — so e.g.
"2 weeks" normalizes to 7 despite the explicit numeral); 30 whenever it
contains "month" (and not "week"); otherwise the first integer found in
the text; and 5 when no integer occurs. -/
theorem c1_extract_days_normalization :
    extract_days none = 5 ∧
    (∀ s : String, strContains (pyLower s) "week" = true → extract_days (some s) = 7) ∧
    (∀ s : String, strContains (pyLower s) "week" = false →
      strContains (pyLower s) "month" = true → extract_days (some s) = 30) ∧
    (∀ (s : String) (n : Nat), strContains (pyLower s) "week" = false →
      strContains (pyLower s) "month" = false → firstNat (pyLower s) = some n →
      extract_days (some s) = n) ∧
    (∀ s : String, strContains (pyLower s) "week" = false →
      strContains (pyLower s) "month" = false → firstNat (pyLower s) = none →
      extract_days (some s) = 5) ∧
    extract_days (some "2 weeks") = 7 := by
  refine ⟨rfl, ?_, ?_, ?_, ?_, by decide⟩
  · intro s h
    by_cases hs : s = ""
    · subst hs; exact absurd h (by decide)
    · simp [extract_days, hs, h]
  · intro s h1 h2
    by_cases hs : s = ""
    · subst hs; exact absurd h2 (by decide)
    · simp [extract_days, hs, h1, h2]
  · intro s n h1 h2 h3
    by_cases hs : s = ""
    · subst hs
      have hnone : firstNat (pyLower "") = none := by decide
      rw [hnone] at h3
      exact Option.noConfusion h3
    · simp [extract_days, hs, h1, h2, h3]
  · intro s h1 h2 h3
    by_cases hs : s = ""
    · subst hs; decide
    · simp [extract_days, hs, h1, h2, h3]

/-- Witness for C1 at the concrete input "3 WEEKS": the week rule fires
case-insensitively and overrides the numeral. -/
theorem c1_witness : extract_days (some "3 WEEKS") = 7 :=
  c1_extract_days_normalization.2.1 "3 WEEKS" (by decide)

/-- Counterexample to claim C2: the utterance "2 weeks" contains "week",
but the Extractor's duration update is "2 days", not the fixed token
"7 days". -/
theorem c2_counterexample :
    strContains "2 weeks" "week" = true ∧
    (extract_travel_info "2 weeks").duration = some "2 days" ∧
    (extract_travel_info "2 weeks").duration ≠ some "7 days" := by
  refine ⟨by decide, by decide, by decide⟩

/-- Claim C2, amended: the Extractor gives "week"/"month" no fixed
values.  A duration update is produced exactly when the duration regex
finds an integer adjacent to a day/week/month unit (or an "N-day" form),
and the update is always that captured integer followed by " days" —
so "2 weeks" yields "2 days", "1 month" yields "1 days", and a text
containing "week" with no adjacent integer yields no duration update. -/
theorem c2_amended_duration_update :
    (∀ (s : String) (d : String), (extract_travel_info s).duration = some d →
      ∃ g : List Char, d = String.mk g ++ " days" ∧ g ≠ [] ∧ g.all Char.isDigit = true) ∧
    (extract_travel_info "2 weeks").duration = some "2 days" ∧
    (extract_travel_info "1 month").duration = some "1 days" ∧
    (extract_travel_info "one week").duration = none := by
  refine ⟨?_, by decide, by decide, by decide⟩
  intro s d h
  by_cases hs : s = ""
  · subst hs; simp [extract_travel_info, Extracted.empty] at h
  · simp only [extract_travel_info, hs, if_false] at h
    rw [Option.map_eq_some'] at h
    obtain ⟨g, hg, hd⟩ := h
    exact ⟨g, hd.symm, durSearch_digits _ g hg⟩

/-- Witness for C2 at the concrete input "2 weeks": its update "2 days"
is a captured numeral followed by " days". -/
theorem c2_witness :
    ∃ g : List Char, "2 days" = String.mk g ++ " days" ∧ g ≠ [] ∧ g.all Char.isDigit = true :=
  c2_amended_duration_update.1 "2 weeks" "2 days" (by decide)

/-- Counterexample to claim C3: on a profile whose destination is the
empty string (a value the extractor can store, e.g. from "going to 5"),
the first slot whose value is null is the duration, yet
`get_next_question` asks for the destination again. -/
theorem c3_counterexample :
    (extract_travel_info "going to 5").destination = some "" ∧
    (Profile.mk (some "") none none none none none none none none).destination ≠ none ∧
    (Profile.mk (some "") none none none none none none none none).duration = none ∧
    get_next_question (Profile.mk (some "") none none none none none none none none) =
      "get_destination" ∧
    ("get_destination" : String) ≠ "get_duration" := by
  refine ⟨by decide, by decide, by decide, by decide, by decide⟩

/-- Claim C3, amended: for every profile, `get_next_question` returns the
identifier of the first slot in the canonical order whose value is null
or the empty string (Python falsiness), and the confirm-generation
identifier when all eight slots are filled — i.e. it coincides with the
specification-side `nextPromptSpec`. -/
theorem c3_amended_next_prompt :
    ∀ profile : Profile, get_next_question profile = nextPromptSpec profile := by
  intro profile
  rw [get_next_question_chain]
  simp only [nextPromptSpec, nullOrEmpty_eq_not_truthy]

/-- On a processed turn that does not reach the generation guard, the
resulting state is `stateAfter` (both the clarification and the question
branch store it). -/
theorem handle_else_snd (gen : Profile → String) (s : ConvState) (p : String)
    (hp : ¬ p = "") (hcore : coreAll (mergedProfile s p) = false) :
    (handle_user_response gen s (PromptIn.str p)).2 = stateAfter s p := by
  simp only [handle_user_response, hp, if_false, hcore, Bool.false_eq_true]
  cases hm :
      (if (["get_budget", "get_duration", "get_interests", "get_accommodation"].contains
            (get_next_question (afterDietaryDefault (mergedProfile s p))))
       then refine_vague_input p
              (pyReplace (get_next_question (afterDietaryDefault (mergedProfile s p))) "get_" "")
       else none) <;>
    simp [hm]

/-- On such a turn the reply is the clarification when the vague-input
table matched, the mapped question otherwise. -/
theorem handle_else_fst (gen : Profile → String) (s : ConvState) (p : String)
    (hp : ¬ p = "") (hcore : coreAll (mergedProfile s p) = false) :
    (handle_user_response gen s (PromptIn.str p)).1 =
      (match
        (if (["get_budget", "get_duration", "get_interests", "get_accommodation"].contains
              (get_next_question (afterDietaryDefault (mergedProfile s p))))
         then refine_vague_input p
                (pyReplace (get_next_question (afterDietaryDefault (mergedProfile s p))) "get_" "")
         else none) with
       | some c => c
       | none => lookupQuestion (get_next_question (afterDietaryDefault (mergedProfile s p)))) := by
  simp only [handle_user_response, hp, if_false, hcore, Bool.false_eq_true]
  cases hm :
      (if (["get_budget", "get_duration", "get_interests", "get_accommodation"].contains
            (get_next_question (afterDietaryDefault (mergedProfile s p))))
       then refine_vague_input p
              (pyReplace (get_next_question (afterDietaryDefault (mergedProfile s p))) "get_" "")
       else none) <;>
    simp [hm]

/-- Claim C4: on any turn that reaches the next-slot scan (valid string
input, five core slots not yet complete), if the merged profile's
dietary_restrictions is still unset and its interests do not contain
"food" (case-insensitively), then dietary_restrictions is auto-set to the
literal string "None" before the scan runs, the scan never selects the
dietary slot, and the reply is never the dietary question. -/
theorem c4_dietary_auto_default (gen : Profile → String) (s : ConvState) (p : String)
    (hp : ¬ p = "")
    (hcore : coreAll (mergedProfile s p) = false)
    (hdiet : truthyOpt (mergedProfile s p).dietary_restrictions = false)
    (hfood : strContains (pyLower ((mergedProfile s p).interests.getD "")) "food" = false) :
    (handle_user_response gen s (PromptIn.str p)).2.user_info.dietary_restrictions = some "None" ∧
    get_next_question ((handle_user_response gen s (PromptIn.str p)).2.user_info) ≠
      "get_dietary_restrictions" ∧
    (handle_user_response gen s (PromptIn.str p)).1 ≠
      "Any dietary restrictions we should consider?" := by
  have hAD : afterDietaryDefault (mergedProfile s p) =
      { mergedProfile s p with dietary_restrictions := some "None" } := by
    unfold afterDietaryDefault
    rw [hdiet, hfood]
    simp
  have htr : truthyOpt (afterDietaryDefault (mergedProfile s p)).dietary_restrictions = true := by
    rw [hAD]; rfl
  have hsnd := handle_else_snd gen s p hp hcore
  refine ⟨?_, ?_, ?_⟩
  · rw [hsnd]
    simp only [stateAfter]
    rw [hAD]
  · rw [hsnd]
    simp only [stateAfter]
    exact nextq_ne_dietary _ htr
  · rw [handle_else_fst gen s p hp hcore]
    cases hm :
        (if (["get_budget", "get_duration", "get_interests", "get_accommodation"].contains
              (get_next_question (afterDietaryDefault (mergedProfile s p))))
         then refine_vague_input p
                (pyReplace (get_next_question (afterDietaryDefault (mergedProfile s p))) "get_" "")
         else none) with
    | some c =>
      simp only [hm]
      split_ifs at hm with hcond
      exact refine_ne_dietary _ _ _ hm
    | none =>
      simp only [hm]
      exact lookup_ne_dietary _ (nextq_ne_dietary _ htr)

/-- Witness for C4: a fresh session and the utterance "hi" (which
extracts nothing): the dietary slot is auto-set to "None" and the reply
is the destination question, not the dietary one. -/
theorem c4_witness :
    (handle_user_response genStub sessionFresh (PromptIn.str "hi")).2.user_info.dietary_restrictions =
      some "None" ∧
    get_next_question ((handle_user_response genStub sessionFresh (PromptIn.str "hi")).2.user_info) ≠
      "get_dietary_restrictions" ∧
    (handle_user_response genStub sessionFresh (PromptIn.str "hi")).1 ≠
      "Any dietary restrictions we should consider?" :=
  c4_dietary_auto_default genStub sessionFresh "hi" (by decide) (by decide) (by decide) (by decide)

/-- Claim C5: on a non-empty input list the preference filter never
returns an empty list, and when no item satisfies any keep-condition it
returns exactly the first 5 elements of the unfiltered input. -/
theorem c5_filter_fallback_nonempty (items : List Item) (p : Profile) (h : items ≠ []) :
    filter_by_preferences items p ≠ [] ∧
    ((∀ it ∈ items, keepItem (interestsOf p) p it = false) →
      filter_by_preferences items p = items.take 5) := by
  have hne : items.isEmpty = false := by
    cases items
    · exact absurd rfl h
    · rfl
  constructor
  · unfold filter_by_preferences
    simp only [hne, Bool.false_eq_true, if_false]
    by_cases hf : (items.filter (keepItem (interestsOf p) p)).isEmpty
    · simp only [hf, if_true]
      cases items with
      | nil => exact absurd rfl h
      | cons a l => simp
    · have hfb : (items.filter (keepItem (interestsOf p) p)).isEmpty = false := by
        simpa using hf
      simp only [hfb, Bool.false_eq_true, if_false]
      intro hcon
      rw [hcon] at hfb
      exact absurd hfb (by decide)
  · intro hall
    unfold filter_by_preferences
    simp only [hne, Bool.false_eq_true, if_false]
    have hfil : items.filter (keepItem (interestsOf p) p) = [] := by
      refine List.filter_eq_nil_iff.mpr ?_
      intro a ha
      simp [hall a ha]
    simp [hfil]

/-- Witness for C5: six items, a profile whose interests match none of
them: the filter returns the first five. -/
theorem c5_witness :
    filter_by_preferences sampleItems profileNoHit = sampleItems.take 5 :=
  (c5_filter_fallback_nonempty sampleItems profileNoHit (by decide)).2 (by decide)

/-- Counterexample to claim C6: a profile with no interests set does not
leave a six-element list unchanged — the filter falls back to its first
five elements. -/
theorem c6_counterexample :
    Profile.empty.interests = none ∧
    filter_by_preferences sampleItems Profile.empty ≠ sampleItems := by
  refine ⟨rfl, by decide⟩

/-- Claim C6, amended: filtering with a profile that has no interests,
no dietary restrictions and no accommodation preference set returns the
first 5 items of the input — hence the input unchanged exactly when it
has at most 5 elements. -/
theorem c6_amended_filter_take5 (items : List Item) (p : Profile)
    (h1 : truthyOpt p.interests = false)
    (h2 : truthyOpt p.dietary_restrictions = false)
    (h3 : truthyOpt p.accommodation_preference = false) :
    filter_by_preferences items p = items.take 5 := by
  cases items with
  | nil => rfl
  | cons a l =>
    unfold filter_by_preferences
    have hfil : (a :: l).filter (keepItem (interestsOf p) p) = [] := by
      refine List.filter_eq_nil_iff.mpr ?_
      intro x hx
      simp [keepItem, interestsOf, h1, h2, h3]
    simp [hfil]

/-- Witness for C6: the six sample items with the all-empty profile give
exactly the first five. -/
theorem c6_witness :
    filter_by_preferences sampleItems Profile.empty = sampleItems.take 5 :=
  c6_amended_filter_take5 sampleItems Profile.empty (by decide) (by decide) (by decide)

/-- Counterexample to claim C7 (the accommodation case): a session whose
pending slot is the accommodation preference and the vague utterance
"surprise me" (which matches the accommodation vague-input table).  All
five core slots are necessarily filled, so the handler returns the
generation offer, not the clarifying question. -/
theorem c7_counterexample :
    get_next_question sessionAccPending.user_info = "get_accommodation_preference" ∧
    refine_vague_input "surprise me" "accommodation" =
      some "I can select a highly-rated option that fits your budget. Is that okay?" ∧
    (handle_user_response genStub sessionAccPending (PromptIn.str "surprise me")).1 =
      "I have enough information to generate your itinerary. Would you like me to create it now?" ∧
    (handle_user_response genStub sessionAccPending (PromptIn.str "surprise me")).1 ≠
      "I can select a highly-rated option that fits your budget. Is that okay?" := by
  refine ⟨by decide, by decide, by decide, by decide⟩

/-- Claim C7, amended: when the pending slot (after merge and dietary
default) is budget, duration, or interests and the utterance matches the
vague-input table for that field, the handler returns the clarifying
question, stores the merged-and-defaulted profile, and the slot remains
unfilled.  (The accommodation case of the original claim cannot occur:
a profile whose pending slot is the accommodation preference passes the
generation guard first, and the dispatch list checks "get_accommodation"
while the scan yields "get_accommodation_preference".) -/
theorem c7_amended_clarification :
    (∀ (gen : Profile → String) (s : ConvState) (p c : String), ¬ p = "" →
      get_next_question (afterDietaryDefault (mergedProfile s p)) = "get_budget" →
      refine_vague_input p "budget" = some c →
      handle_user_response gen s (PromptIn.str p) = (c, stateAfter s p) ∧
      truthyOpt (stateAfter s p).user_info.budget = false) ∧
    (∀ (gen : Profile → String) (s : ConvState) (p c : String), ¬ p = "" →
      get_next_question (afterDietaryDefault (mergedProfile s p)) = "get_duration" →
      refine_vague_input p "duration" = some c →
      handle_user_response gen s (PromptIn.str p) = (c, stateAfter s p) ∧
      truthyOpt (stateAfter s p).user_info.duration = false) ∧
    (∀ (gen : Profile → String) (s : ConvState) (p c : String), ¬ p = "" →
      get_next_question (afterDietaryDefault (mergedProfile s p)) = "get_interests" →
      refine_vague_input p "interests" = some c →
      handle_user_response gen s (PromptIn.str p) = (c, stateAfter s p) ∧
      truthyOpt (stateAfter s p).user_info.interests = false) := by
  refine ⟨?_, ?_, ?_⟩
  · intro gen s p c hp hnq href
    have hb2 : truthyOpt (afterDietaryDefault (mergedProfile s p)).budget = false :=
      nextq_budget_falsy _ hnq
    have hb : truthyOpt (mergedProfile s p).budget = false := by
      rw [afterDietary_budget] at hb2; exact hb2
    have hcore : coreAll (mergedProfile s p) = false := by
      simp [coreAll, hb]
    have h1 := handle_else_fst gen s p hp hcore
    have h2 := handle_else_snd gen s p hp hcore
    rw [hnq] at h1
    simp only [(by decide :
        (["get_budget", "get_duration", "get_interests", "get_accommodation"].contains
          ("get_budget" : String)) = true),
      if_true,
      (by decide : pyReplace "get_budget" "get_" "" = "budget"), href] at h1
    exact ⟨Prod.ext_iff.mpr ⟨h1, h2⟩, by simp only [stateAfter]; exact hb2⟩
  · intro gen s p c hp hnq href
    have hb2 : truthyOpt (afterDietaryDefault (mergedProfile s p)).duration = false :=
      nextq_duration_falsy _ hnq
    have hb : truthyOpt (mergedProfile s p).duration = false := by
      rw [afterDietary_duration] at hb2; exact hb2
    have hcore : coreAll (mergedProfile s p) = false := by
      simp [coreAll, hb]
    have h1 := handle_else_fst gen s p hp hcore
    have h2 := handle_else_snd gen s p hp hcore
    rw [hnq] at h1
    simp only [(by decide :
        (["get_budget", "get_duration", "get_interests", "get_accommodation"].contains
          ("get_duration" : String)) = true),
      if_true,
      (by decide : pyReplace "get_duration" "get_" "" = "duration"), href] at h1
    exact ⟨Prod.ext_iff.mpr ⟨h1, h2⟩, by simp only [stateAfter]; exact hb2⟩
  · intro gen s p c hp hnq href
    have hb2 : truthyOpt (afterDietaryDefault (mergedProfile s p)).interests = false :=
      nextq_interests_falsy _ hnq
    have hb : truthyOpt (mergedProfile s p).interests = false := by
      rw [afterDietary_interests] at hb2; exact hb2
    have hcore : coreAll (mergedProfile s p) = false := by
      simp [coreAll, hb]
    have h1 := handle_else_fst gen s p hp hcore
    have h2 := handle_else_snd gen s p hp hcore
    rw [hnq] at h1
    simp only [(by decide :
        (["get_budget", "get_duration", "get_interests", "get_accommodation"].contains
          ("get_interests" : String)) = true),
      if_true,
      (by decide : pyReplace "get_interests" "get_" "" = "interests"), href] at h1
    exact ⟨Prod.ext_iff.mpr ⟨h1, h2⟩, by simp only [stateAfter]; exact hb2⟩

/-- Witness for C7: a session with destination and duration filled and
the vague utterance "moderate" for the pending budget slot: the handler
returns the suggested-range clarification and the budget stays unset. -/
theorem c7_witness :
    handle_user_response genStub sessionBudgetPending (PromptIn.str "moderate") =
      ("For a moderate budget, I\x27d suggest $150-$200 per day. Does this range work for you?",
       stateAfter sessionBudgetPending "moderate") ∧
    truthyOpt (stateAfter sessionBudgetPending "moderate").user_info.budget = false :=
  c7_amended_clarification.1 genStub sessionBudgetPending "moderate"
    "For a moderate budget, I\x27d suggest $150-$200 per day. Does this range work for you?"
    (by decide) (by decide) (by decide)

/-- Claim C8: itinerary composition never raises — for every environment
(providers, random source, clock, web-search flag) and every profile,
`generate_detailed_itinerary` returns the body's document when the body
succeeds, and converts any exception into the itinerary-shaped error
string otherwise; concretely, a raising destination-info provider yields
the converted error string. -/
theorem c8_generate_never_raises :
    (∀ (env : GenEnv) (ui : Profile),
      (∃ e, genBody env ui = Except.error e ∧
            generate_detailed_itinerary env ui = "⚠️ Error generating itinerary: " ++ e) ∨
      genBody env ui = Except.ok (generate_detailed_itinerary env ui)) ∧
    generate_detailed_itinerary envFail Profile.empty =
      "⚠️ Error generating itinerary: provider boom" := by
  constructor
  · intro env ui
    cases h : genBody env ui with
    | error e => exact Or.inl ⟨e, rfl, by simp [generate_detailed_itinerary, h]⟩
    | ok s => exact Or.inr (by simp [generate_detailed_itinerary, h])
  · rfl

/-- Claim C10: an empty or non-string input makes the turn handler return
the fixed reply and leaves the whole session state (conversation,
profile, pending question, web-search flag) unchanged. -/
theorem c10_invalid_input_unchanged :
    ∀ (gen : Profile → String) (s : ConvState),
      handle_user_response gen s (PromptIn.str "") =
        ("Please provide a valid travel request", s) ∧
      handle_user_response gen s PromptIn.nonString =
        ("Please provide a valid travel request", s) := by
  intro gen s
  exact ⟨by simp [handle_user_response], rfl⟩
